import Mathlib

/-!
Verification of the mesh-parameter derivation engine of ampersandCFD.

The definitions below are a shallow embedding of the Python source in
`src/ampersand` (models/settings.py and utils/stl_analysis.py).  Python
floats are modelled as exact rationals wherever the source performs only
field operations and comparisons; the boundary-layer correlations, which
use `sqrt`, `log` and fractional powers, are modelled over the reals.
Python `math.ceil` is `Int.ceil`, Python `%` on nonnegative ints agrees
with `Int.emod`, and Python `int()` on a float truncates toward zero.
-/

/-- Embedding of `models/settings.py : BoundingBox` (the six scalar bounds;
pydantic performs no validation, so any six rationals form a value). -/
structure BoundingBox where
  minx : ℚ
  maxx : ℚ
  miny : ℚ
  maxy : ℚ
  minz : ℚ
  maxz : ℚ
  deriving DecidableEq

namespace BoundingBox

/-- `BoundingBox.size` : `(maxx - minx, maxy - miny, maxz - minz)`. -/
def size (b : BoundingBox) : ℚ × ℚ × ℚ :=
  (b.maxx - b.minx, b.maxy - b.miny, b.maxz - b.minz)

/-- `BoundingBox.max_length` : `max(*self.size)`. -/
def max_length (b : BoundingBox) : ℚ :=
  max (b.maxx - b.minx) (max (b.maxy - b.miny) (b.maxz - b.minz))

/-- `BoundingBox.min_length` : `min(*self.size)`. -/
def min_length (b : BoundingBox) : ℚ :=
  min (b.maxx - b.minx) (min (b.maxy - b.miny) (b.maxz - b.minz))

/-- `BoundingBox.scale_dimensions` : each of the six bounds is shifted by
its own additive offset. -/
def scale_dimensions (b : BoundingBox) (xmin_offset xmax_offset ymin_offset ymax_offset zmin_offset zmax_offset : ℚ) : BoundingBox :=
  { minx := b.minx + xmin_offset
    maxx := b.maxx + xmax_offset
    miny := b.miny + ymin_offset
    maxy := b.maxy + ymax_offset
    minz := b.minz + zmin_offset
    maxz := b.maxz + zmax_offset }

/-- The spec's BoundingBox invariant: `min ≤ max` per axis. -/
def valid (b : BoundingBox) : Prop :=
  b.minx ≤ b.maxx ∧ b.miny ≤ b.maxy ∧ b.minz ≤ b.maxz

instance (b : BoundingBox) : Decidable b.valid := by
  unfold valid; infer_instance

/-- Componentwise box containment (`outer ⊇ inner`), the spec's notion of
"the domain contains the input surface box". -/
def contains (outer inner : BoundingBox) : Prop :=
  outer.minx ≤ inner.minx ∧ inner.maxx ≤ outer.maxx ∧
  outer.miny ≤ inner.miny ∧ inner.maxy ≤ outer.maxy ∧
  outer.minz ≤ inner.minz ∧ inner.maxz ≤ outer.maxz

instance (o i : BoundingBox) : Decidable (o.contains i) := by
  unfold contains; infer_instance

theorem max_length_nonneg {b : BoundingBox} (h : b.valid) : 0 ≤ b.max_length := by
  obtain ⟨h1, h2, h3⟩ := h
  unfold max_length
  have : (0:ℚ) ≤ b.maxx - b.minx := by linarith
  exact le_trans this (le_max_left _ _)

theorem min_length_nonneg {b : BoundingBox} (h : b.valid) : 0 ≤ b.min_length := by
  obtain ⟨h1, h2, h3⟩ := h
  unfold min_length
  refine le_min (by linarith) (le_min (by linarith) (by linarith))

end BoundingBox

/-- Embedding of `models/settings.py : Domain` (a BoundingBox plus integer
cell counts `nx, ny, nz`). -/
structure Domain where
  minx : ℚ
  maxx : ℚ
  miny : ℚ
  maxy : ℚ
  minz : ℚ
  maxz : ℚ
  nx : ℤ
  ny : ℤ
  nz : ℤ
  deriving DecidableEq

namespace Domain

/-- `Domain.from_bbox`. -/
def from_bbox (bbox : BoundingBox) (nx ny nz : ℤ) : Domain :=
  { minx := bbox.minx, maxx := bbox.maxx, miny := bbox.miny, maxy := bbox.maxy
    minz := bbox.minz, maxz := bbox.maxz, nx := nx, ny := ny, nz := nz }

/-- `Domain.bbox`. -/
def bbox (d : Domain) : BoundingBox :=
  { minx := d.minx, maxx := d.maxx, miny := d.miny, maxy := d.maxy
    minz := d.minz, maxz := d.maxz }

/-- `Domain.update(current, new_domain)` as called in
`add_stl_to_settings` (with `nx = ny = nz = None` and a `Domain` argument):
the componentwise envelope of the two boxes and the componentwise maximum
of the cell counts. -/
def update (current new_domain : Domain) : Domain :=
  { minx := min new_domain.minx current.minx
    maxx := max new_domain.maxx current.maxx
    miny := min new_domain.miny current.miny
    maxy := max new_domain.maxy current.maxy
    minz := min new_domain.minz current.minz
    maxz := max new_domain.maxz current.maxz
    nx := max new_domain.nx current.nx
    ny := max new_domain.ny current.ny
    nz := max new_domain.nz current.nz }

end Domain

/-- `RefinementAmount = Literal["coarse", "medium", "fine"]`. -/
inductive RefinementAmount where
  | coarse
  | medium
  | fine
  deriving DecidableEq

/-- The `PatchType` literal union from `models/settings.py`. -/
inductive PatchType where
  | inlet
  | outlet
  | symmetry
  | wall
  | searchableBox
  | refinementSurface
  | refinementRegion
  | cellZone
  | baffles
  | cyclic
  | freeSurface
  | movingWall
  deriving DecidableEq

/-- `PatchProperty = Union[tuple[Number, Number, Number], Number]`. -/
inductive PatchProperty where
  | scalar (value : ℚ)
  | vector (value : ℚ × ℚ × ℚ)
  deriving DecidableEq

/-- Embedding of `TriSurfaceMeshGeometry` (the fields of `Patch` plus the
surface-specific fields). -/
structure TriSurfaceMeshGeometry where
  type : PatchType
  property : Option PatchProperty
  refineMin : ℤ
  refineMax : ℤ
  featureEdges : Bool
  featureLevel : ℤ
  nLayers : ℤ
  bounds : BoundingBox
  deriving DecidableEq

/-- Embedding of `SearchableBoxGeometry` (its `type` field is the constant
literal `"searchableBox"`, so it is not stored). -/
structure SearchableBoxGeometry where
  bbox : BoundingBox
  refineMax : ℤ
  deriving DecidableEq

/-- `Geometry = Union[TriSurfaceMeshGeometry, SearchableBoxGeometry]`. -/
inductive Geometry where
  | tri (g : TriSurfaceMeshGeometry)
  | box (g : SearchableBoxGeometry)
  deriving DecidableEq

/-- The `.type` attribute of a geometry value: surfaces carry their own
patch type, searchable boxes always have type `"searchableBox"`. -/
def Geometry.patchType : Geometry → PatchType
  | .tri g => g.type
  | .box _ => .searchableBox

/-- The slice of `CastellatedMeshControls` touched by the settings
mutator (`locationInMesh`; the remaining fields are constants it never
reads or writes). -/
structure CastellatedMeshControls where
  locationInMesh : ℚ × ℚ × ℚ
  deriving DecidableEq

/-- The slice of `AddLayersControls` read or written by the engine:
`expansionRatio`, `finalLayerThickness` and `minThickness`. -/
structure AddLayersControls where
  expansionRatio : ℚ
  finalLayerThickness : ℚ
  minThickness : ℚ
  deriving DecidableEq

/-- Embedding of `MeshSettings`/`SnappyHexMeshSettings`: the domain, the
regime flags, the chosen refinement amount, and the insertion-ordered
patch-name → geometry mapping (a Python dict, modelled as an association
list that preserves insertion order). -/
structure MeshSettings where
  domain : Domain
  maxCellSize : ℚ
  refAmount : RefinementAmount
  onGround : Bool
  halfModel : Bool
  internalFlow : Bool
  geometry : List (String × Geometry)
  castellatedMeshControls : CastellatedMeshControls
  addLayersControls : AddLayersControls
  deriving DecidableEq

/-- `PhysicalProperties` flattened to the two fluid scalars the engine
reads (`nu` and `rho` of the `fluid` record). -/
structure PhysicalProperties where
  rho : ℚ
  nu : ℚ
  deriving DecidableEq

/-- The slice of `BoundaryCondition` the engine reads: the inlet velocity
vector `u_value`. -/
structure BoundaryCondition where
  u_value : ℚ × ℚ × ℚ
  deriving DecidableEq

/-- `BoundaryCondition.u_max` : `max(self.u_value)`. -/
def BoundaryCondition.u_max (bc : BoundaryCondition) : ℚ :=
  max bc.u_value.1 (max bc.u_value.2.1 bc.u_value.2.2)

/-- The slice of `BoundaryConditions` the engine reads. -/
structure BoundaryConditions where
  velocityInlet : BoundaryCondition
  deriving DecidableEq

/-- Embedding of `SimulationSettings` restricted to the members the
mesh-parameter engine reads or writes. -/
structure SimulationSettings where
  mesh : MeshSettings
  physical_properties : PhysicalProperties
  boundary_conditions : BoundaryConditions
  deriving DecidableEq

/-- Python dict assignment `d[k] = v` on an insertion-ordered mapping:
replace in place when the key exists, append otherwise. -/
def dictSet (g : List (String × Geometry)) (k : String) (v : Geometry) : List (String × Geometry) :=
  if g.any (fun p => p.1 = k) then
    g.map (fun p => if p.1 = k then (k, v) else p)
  else
    g ++ [(k, v)]

/-- Python `d.update(entries)`: assign each entry in order. -/
def dictUpdate (g : List (String × Geometry)) (entries : List (String × Geometry)) : List (String × Geometry) :=
  entries.foldl (fun acc p => dictSet acc p.1 p.2) g

/-- The duplicate-wall scan at the head of the `wall` branch of
`add_stl_to_settings`: does any registered geometry have type `"wall"`? -/
def containsWall (g : List (String × Geometry)) : Bool :=
  g.any (fun p => p.2.patchType = PatchType.wall)

namespace StlAnalysis

/-- `StlAnalysis.calc_domain_bbox`: expand the surface box into the
computational domain box according to the regime flags. -/
def calc_domain_bbox (stl_bbox : BoundingBox) (size_factor : ℚ) (on_ground internal_flow is_half_model : Bool) : BoundingBox :=
  let characteristic_length := stl_bbox.max_length
  let max_size_factor := characteristic_length * size_factor
  let domain_bbox :=
    if internal_flow then
      stl_bbox.scale_dimensions (-(0.1*size_factor)) (0.1*size_factor) (-(0.1*size_factor)) (0.1*size_factor) (-(0.1*size_factor)) (0.1*size_factor)
    else
      stl_bbox.scale_dimensions (-(3*max_size_factor)) (9*max_size_factor) (-(2*max_size_factor)) (2*max_size_factor) (-(2*max_size_factor)) (2*max_size_factor)
  let domain_bbox :=
    if on_ground then
      { domain_bbox with minz := stl_bbox.minz, maxz := stl_bbox.maxz + 4.0*max_size_factor }
    else domain_bbox
  let domain_bbox :=
    if is_half_model then
      { domain_bbox with maxy := (domain_bbox.maxy + domain_bbox.miny)/2 }
    else domain_bbox
  domain_bbox

/-- `StlAnalysis.get_refinement_box` (the wide wake box). -/
def get_refinement_box (stl_bbox : BoundingBox) : BoundingBox :=
  let x_length := stl_bbox.size.1
  let y_length := stl_bbox.size.2.1
  let z_length := stl_bbox.size.2.2
  stl_bbox.scale_dimensions (-(0.7*x_length)) (15.0*x_length) (-(1.0*y_length)) (1.0*y_length) (-(1.0*z_length)) (1.0*z_length)

/-- `StlAnalysis.get_refinement_box_close` (the narrow near-body box). -/
def get_refinement_box_close (stl_bbox : BoundingBox) : BoundingBox :=
  let x_length := stl_bbox.size.1
  let y_length := stl_bbox.size.2.1
  let z_length := stl_bbox.size.2.2
  stl_bbox.scale_dimensions (-(0.2*x_length)) (3.0*x_length) (-(0.45*y_length)) (0.45*y_length) (-(0.45*z_length)) (0.45*z_length)

/-- `StlAnalysis.get_refinement_boxes`: empty for internal flow; for
external flow the dict with the wide box at `ref_level - 1` and the
`"fineBox"` at `ref_level` (the dict is modelled as an ordered list). -/
def get_refinement_boxes (stl_bbox : BoundingBox) (boxName : String) (ref_level : ℤ) (is_internal_flow : Bool) : List (String × Geometry) :=
  if is_internal_flow then
    []
  else
    [ (boxName, Geometry.box { bbox := get_refinement_box stl_bbox, refineMax := ref_level - 1 })
    , ("fineBox", Geometry.box { bbox := get_refinement_box_close stl_bbox, refineMax := ref_level }) ]

/-- `StlAnalysis.get_ground_refinement_box`: a thin slab around the domain
floor, of half-thickness `0.2 · dz(surface)`, at level `refLevel`. -/
def get_ground_refinement_box (mesh_settings : MeshSettings) (stl_bbox : BoundingBox) (refLevel : ℤ) : Geometry :=
  let z := mesh_settings.domain.minz
  let z_delta := 0.2*(stl_bbox.maxz - stl_bbox.minz)
  Geometry.box
    { bbox := { minx := -1000.0, maxx := 1000, miny := -1000, maxy := 1000
                minz := z - z_delta, maxz := z + z_delta }
      refineMax := refLevel }

/-- `StlAnalysis.calc_nx_ny_nz`: per-axis `ceil(extent / cellSize)`, then
`+ 1` on any odd count (Python `if n % 2: n += 1`). -/
def calc_nx_ny_nz (domain_bbox : BoundingBox) (target_cell_size : ℚ) : ℤ × ℤ × ℤ :=
  let nx : ℤ := ⌈(domain_bbox.maxx - domain_bbox.minx) / target_cell_size⌉
  let ny : ℤ := ⌈(domain_bbox.maxy - domain_bbox.miny) / target_cell_size⌉
  let nz : ℤ := ⌈(domain_bbox.maxz - domain_bbox.minz) / target_cell_size⌉
  let nx := if nx % 2 ≠ 0 then nx + 1 else nx
  let ny := if ny % 2 ≠ 0 then ny + 1 else ny
  let nz := if nz % 2 ≠ 0 then nz + 1 else nz
  (nx, ny, nz)

/-- `StlAnalysis.calc_background_cell_size`: the per-amount lookup with
the slender-geometry branch for internal flow, capped by `maxCellSize`. -/
def calc_background_cell_size (refinement_amount : RefinementAmount) (stl_bbox : BoundingBox) (maxCellSize : ℚ) (internalFlow : Bool) : ℚ :=
  let max_length := stl_bbox.max_length
  let min_length := stl_bbox.min_length
  match refinement_amount with
  | .coarse =>
      if internalFlow then
        if max_length / min_length > 10 then min (max_length/50) maxCellSize
        else min (min_length/8) maxCellSize
      else
        min (min_length/3) maxCellSize
  | .medium =>
      if internalFlow then
        if max_length / min_length > 10 then min (max_length/70) maxCellSize
        else min (min_length/12) maxCellSize
      else
        min (min_length/5) maxCellSize
  | .fine =>
      if internalFlow then
        if max_length / min_length > 10 then min (max_length/90) maxCellSize
        else min (min_length/16) maxCellSize
      else
        min (min_length/7) maxCellSize

/-- The loop body of `StlAnalysis.calc_layers`, with explicit fuel:
`for i in range(1, 50)` performs at most 49 iterations; on break the pair
`(i, currentThickness)` is returned, and if the loop runs out the
original `N = 0` is returned with the last thickness. -/
def calc_layers_go (expRatio delta : ℚ) : ℕ → ℕ → ℚ → ℚ → ℕ × ℚ
  | 0, _, currentThickness, _ => (0, currentThickness)
  | fuel + 1, i, currentThickness, currentDelta =>
      let t := currentThickness * expRatio ^ i
      let d := currentDelta + t
      if delta < d then (i, t)
      else calc_layers_go expRatio delta fuel (i + 1) t d

/-- `StlAnalysis.calc_layers(yFirst, delta, expRatio)`: grow the layer
thickness by `expRatio ** i` at step `i`, accumulate, stop when the
running sum exceeds `delta`. -/
def calc_layers (yFirst delta expRatio : ℚ) : ℕ × ℚ :=
  calc_layers_go expRatio delta 49 1 (yFirst * 2) 0

/-- Closed form of the thickness variable of `calc_layers` after step
`i` (`iterThick 0` is the initial `yFirst * 2.0`). -/
def iterThick (yFirst expRatio : ℚ) : ℕ → ℚ
  | 0 => yFirst * 2
  | i + 1 => iterThick yFirst expRatio i * expRatio ^ (i + 1)

/-- Closed form of the accumulator of `calc_layers` after step `i`. -/
def iterSum (yFirst expRatio : ℚ) : ℕ → ℚ
  | 0 => 0
  | i + 1 => iterSum yFirst expRatio i + iterThick yFirst expRatio (i + 1)

/-- The total depth of a purely geometric schedule of `n` layers with
first-layer thickness `yFirst * 2` and ratio `expRatio`: the target depth
that is consistent with the closed-form layer count (§4.5 step 7). -/
def geomSum (yFirst expRatio : ℚ) : ℕ → ℚ
  | 0 => 0
  | i + 1 => geomSum yFirst expRatio i + yFirst * 2 * expRatio ^ (i + 1)

end StlAnalysis

/-- Python `int(x)` on a float: truncation toward zero. -/
noncomputable def pyInt (x : ℝ) : ℤ :=
  if 0 ≤ x then ⌊x⌋ else ⌈x⌉

namespace StlAnalysis

/-- `StlAnalysis.calc_y(nu, rho, L, U_val, target_yPlus)`: flat-plate
skin-friction correlation giving the near-wall distance for a target
y-plus.  The fractional power is real `rpow`, `np.sqrt` is `Real.sqrt`. -/
noncomputable def calc_y (nu rho L U_val target_yPlus : ℝ) : ℝ :=
  let Re := U_val * L / nu
  let Cf := 0.0592 * Re ^ (-(1/5) : ℝ)
  let tau := 0.5 * rho * Cf * U_val ^ 2
  let uStar := Real.sqrt (tau / rho)
  target_yPlus * nu / uStar

/-- `StlAnalysis.calc_yPlus(nu, L, u, y)`: the y-plus of a given wall
distance from the same correlation. -/
noncomputable def calc_yPlus (nu L u y : ℝ) : ℝ :=
  let Re := u * L / nu
  let Cf := 0.0592 * Re ^ (-(1/5) : ℝ)
  let tau := 0.5 * Cf * u ^ 2
  let uStar := Real.sqrt tau
  uStar * y / nu

/-- The closed-form layer count on line 289 of `stl_analysis.py`:
`max(1, int(np.log(final/first)/np.log(expansionRatio)))`. -/
noncomputable def num_layers (first_layer_thickness final_layer_thickness expansionRatio : ℝ) : ℤ :=
  max 1 (pyInt (Real.log (final_layer_thickness / first_layer_thickness) / Real.log expansionRatio))

end StlAnalysis

/-- The `BoundaryLayer` result model of `stl_analysis.py`. -/
structure BoundaryLayer where
  yPlus : ℝ
  y : ℝ
  first_layer_thickness : ℝ
  final_layer_thickness : ℝ
  nLayers : ℤ

namespace StlAnalysis

/-- `StlAnalysis.calc_boundary_layer(stl_bbox, settings, target_cell_size)`
with the settings scalars it reads (`nu`, `rho`, `velocityInlet.u_max`,
`addLayersControls.expansionRatio`) passed explicitly. -/
noncomputable def calc_boundary_layer (stl_bbox : BoundingBox) (refAmount : RefinementAmount) (nu rho u_max expansionRatio : ℚ) (target_cell_size : ℚ) : BoundaryLayer :=
  let characteristic_length : ℝ := (stl_bbox.max_length : ℝ)
  let target_yPlus : ℝ :=
    match refAmount with
    | .coarse => 70
    | .medium => 50
    | .fine => 30
  let target_y := calc_y (nu : ℝ) (rho : ℝ) characteristic_length (u_max : ℝ) target_yPlus
  let first_layer_thickness := target_y * 2
  let final_layer_thickness := (target_cell_size : ℝ) * 0.35
  { yPlus := target_yPlus
    y := target_y
    first_layer_thickness := first_layer_thickness
    final_layer_thickness := final_layer_thickness
    nLayers := num_layers first_layer_thickness final_layer_thickness (expansionRatio : ℝ) }

/-- `StlAnalysis.calc_domain(stl_bbox, settings, max_cell_size, size_factor)`
(the source defaults are `max_cell_size = 2.0`, `size_factor = 1.0`). -/
def calc_domain (stl_bbox : BoundingBox) (settings : SimulationSettings) (max_cell_size size_factor : ℚ) : Domain :=
  let characteristic_length := stl_bbox.max_length
  let max_cell_size := if max_cell_size < 0.001 then characteristic_length / 4 else max_cell_size
  let domain_size := calc_domain_bbox stl_bbox size_factor settings.mesh.onGround settings.mesh.internalFlow settings.mesh.halfModel
  let max_cell_size := if max_cell_size < 0.001 then characteristic_length / 4 else max_cell_size
  let background_cell_size := calc_background_cell_size settings.mesh.refAmount stl_bbox max_cell_size settings.mesh.internalFlow
  let counts := calc_nx_ny_nz domain_size background_cell_size
  Domain.from_bbox domain_size counts.1 counts.2.1 counts.2.2

/-- `StlAnalysis.add_stl_to_settings(settings, stl_path, type, property)`.
The collaborator results read from the STL file (its name, its bounding
box, and the location-in-mesh probe point) are parameters; a Python
`raise ValueError` is `Except.error`.  The mutations of the aggregate are
performed in source order, so an error raised by the duplicate-wall scan
precedes every write. -/
noncomputable def add_stl_to_settings (settings : SimulationSettings) (stl_name : String) (stl_bbox : BoundingBox) (location_in_mesh : ℚ × ℚ × ℚ) (type : PatchType) (property : Option PatchProperty) : Except String SimulationSettings :=
  let feature_edges : Bool := type ≠ PatchType.refinementRegion ∧ type ≠ PatchType.refinementSurface
  let ref_level : ℤ :=
    match settings.mesh.refAmount with
    | .coarse => 2
    | .medium => 4
    | .fine => 6
  if type = PatchType.wall then
    if containsWall settings.mesh.geometry then
      Except.error "Only one wall geometry entry allowed currently, if multiple please fuse with one STL"
    else
      let stl_domain := calc_domain stl_bbox settings 2 1
      let mesh := { settings.mesh with domain := Domain.update settings.mesh.domain stl_domain }
      let background_cell_size := |(stl_domain.maxx - stl_domain.minx) / (stl_domain.nx : ℚ)|
      let target_cell_size := background_cell_size / 2 ^ ref_level
      let boundary_layer := calc_boundary_layer stl_bbox mesh.refAmount settings.physical_properties.nu settings.physical_properties.rho settings.boundary_conditions.velocityInlet.u_max mesh.addLayersControls.expansionRatio target_cell_size
      let n_layer := boundary_layer.nLayers
      let mesh := { mesh with maxCellSize := background_cell_size }
      let mesh := { mesh with castellatedMeshControls := { locationInMesh := location_in_mesh } }
      let box_ref_level := max 2 (ref_level - 3)
      let refinement_boxes := get_refinement_boxes stl_bbox "refinementBox" box_ref_level mesh.internalFlow
      let mesh := { mesh with geometry := dictUpdate mesh.geometry refinement_boxes }
      let mesh :=
        if !mesh.internalFlow && mesh.onGround then
          { mesh with geometry := dictSet mesh.geometry "groundBox" (get_ground_refinement_box mesh stl_bbox box_ref_level) }
        else mesh
      let ref_min := max 1 ref_level
      let ref_max := max 2 ref_level
      let feature_level := max ref_level 1
      let mesh := { mesh with geometry := mesh.geometry.map (fun (p : String × Geometry) =>
        match p.2 with
        | Geometry.tri g => (p.1, Geometry.tri { g with refineMin := ref_min, refineMax := ref_max, featureLevel := feature_level, nLayers := n_layer })
        | Geometry.box _ => p) }
      let mesh := { mesh with addLayersControls := { mesh.addLayersControls with finalLayerThickness := 0.5 } }
      let minThickness : ℚ := max 0.0001 (mesh.addLayersControls.finalLayerThickness / 100)
      let mesh := { mesh with addLayersControls := { mesh.addLayersControls with minThickness := minThickness } }
      let mesh := { mesh with geometry := dictSet mesh.geometry stl_name (Geometry.tri
        { type := type, property := property, refineMin := ref_min, refineMax := ref_max
          featureEdges := feature_edges, featureLevel := 1, nLayers := n_layer, bounds := stl_bbox }) }
      Except.ok { settings with mesh := mesh }
  else
    let n_layer : ℤ :=
      match settings.mesh.refAmount with
      | .coarse => 2
      | .medium => 4
      | .fine => 6
    let mesh := { settings.mesh with geometry := dictSet settings.mesh.geometry stl_name (Geometry.tri
      { type := type, property := property, refineMin := 0, refineMax := 0
        featureEdges := feature_edges, featureLevel := 1, nLayers := n_layer, bounds := stl_bbox }) }
    Except.ok { settings with mesh := mesh }

/-- The aggregate the caller observes after `add_stl_to_settings`: the
updated settings on success, the original settings when the call raised
(Python exception semantics). -/
noncomputable def add_stl_outcome (settings : SimulationSettings) (stl_name : String) (stl_bbox : BoundingBox) (location_in_mesh : ℚ × ℚ × ℚ) (type : PatchType) (property : Option PatchProperty) : SimulationSettings :=
  match add_stl_to_settings settings stl_name stl_bbox location_in_mesh type property with
  | Except.ok s => s
  | Except.error _ => settings

end StlAnalysis

/-- Division of a fixed nonnegative numerator is antitone in the (positive)
denominator. -/
theorem qdiv_anti (a c d : ℚ) (ha : 0 ≤ a) (hc : 0 < c) (hcd : c ≤ d) : a / d ≤ a / c := by
  have hd : 0 < d := lt_of_lt_of_le hc hcd
  rw [div_le_div_iff₀ hd hc]
  nlinarith

/-- The spec's rounding rule (§4.3): round an integer up to the nearest
even integer. -/
def roundUpToEven (n : ℤ) : ℤ :=
  if Even n then n else n + 1

theorem odd_snap_eq_roundUpToEven (n : ℤ) :
    (if n % 2 ≠ 0 then n + 1 else n) = roundUpToEven n := by
  unfold roundUpToEven
  by_cases h : Even n
  · simp [h, Int.even_iff.mp h]
  · have h2 : ¬ (n % 2 = 0) := fun hh => h (Int.even_iff.mpr hh)
    simp [h, h2]

theorem roundUpToEven_even (n : ℤ) : Even (roundUpToEven n) := by
  unfold roundUpToEven
  split_ifs with h
  · exact h
  · exact Int.even_add_one.mpr h

theorem roundUpToEven_ge_two (n : ℤ) (h : 1 ≤ n) : 2 ≤ roundUpToEven n := by
  unfold roundUpToEven
  split_ifs with he
  · obtain ⟨k, hk⟩ := he
    omega
  · omega

/-- C3 (counterexample).  The claim asserts the counts are "even and at
least 2" for *every* bounding box and positive cell size; a degenerate
box (`min = max` on an axis, which the pydantic model accepts and the
spec invariant `min ≤ max` allows) yields a count of `0 < 2`: for the
all-zero box with cell size `1`, `nx = ceil(0/1) = 0` and the even-snap
leaves it at `0`. -/
theorem calc_nx_ny_nz_degenerate_box :
    (StlAnalysis.calc_nx_ny_nz ⟨0, 0, 0, 0, 0, 0⟩ 1).1 = 0 ∧
      ¬ 2 ≤ (StlAnalysis.calc_nx_ny_nz ⟨0, 0, 0, 0, 0, 0⟩ 1).1 := by
  have h : (StlAnalysis.calc_nx_ny_nz ⟨0, 0, 0, 0, 0, 0⟩ 1).1 = 0 := by
    simp [StlAnalysis.calc_nx_ny_nz]
  exact ⟨h, by rw [h]; norm_num⟩

/-- C3 (amended: the box must have positive extent per axis).  For every
bounding box with `min < max` on each axis and every positive cell size,
each count is the ceiling of extent over cell size rounded up to the
nearest even integer, applied independently per axis after the ceiling,
and is therefore even and at least 2. -/
theorem calc_nx_ny_nz_even_and_ge_two (b : BoundingBox) (cs : ℚ) (hcs : 0 < cs)
    (hx : b.minx < b.maxx) (hy : b.miny < b.maxy) (hz : b.minz < b.maxz) :
    StlAnalysis.calc_nx_ny_nz b cs =
      (roundUpToEven ⌈(b.maxx - b.minx) / cs⌉,
       roundUpToEven ⌈(b.maxy - b.miny) / cs⌉,
       roundUpToEven ⌈(b.maxz - b.minz) / cs⌉) ∧
    Even (StlAnalysis.calc_nx_ny_nz b cs).1 ∧ 2 ≤ (StlAnalysis.calc_nx_ny_nz b cs).1 ∧
    Even (StlAnalysis.calc_nx_ny_nz b cs).2.1 ∧ 2 ≤ (StlAnalysis.calc_nx_ny_nz b cs).2.1 ∧
    Even (StlAnalysis.calc_nx_ny_nz b cs).2.2 ∧ 2 ≤ (StlAnalysis.calc_nx_ny_nz b cs).2.2 := by
  have heq : StlAnalysis.calc_nx_ny_nz b cs =
      (roundUpToEven ⌈(b.maxx - b.minx) / cs⌉,
       roundUpToEven ⌈(b.maxy - b.miny) / cs⌉,
       roundUpToEven ⌈(b.maxz - b.minz) / cs⌉) := by
    simp only [StlAnalysis.calc_nx_ny_nz]
    rw [odd_snap_eq_roundUpToEven, odd_snap_eq_roundUpToEven, odd_snap_eq_roundUpToEven]
  have cx : 1 ≤ ⌈(b.maxx - b.minx) / cs⌉ := Int.ceil_pos.mpr (div_pos (by linarith) hcs)
  have cy : 1 ≤ ⌈(b.maxy - b.miny) / cs⌉ := Int.ceil_pos.mpr (div_pos (by linarith) hcs)
  have cz : 1 ≤ ⌈(b.maxz - b.minz) / cs⌉ := Int.ceil_pos.mpr (div_pos (by linarith) hcs)
  rw [heq]
  exact ⟨rfl, roundUpToEven_even _, roundUpToEven_ge_two _ cx,
    roundUpToEven_even _, roundUpToEven_ge_two _ cy,
    roundUpToEven_even _, roundUpToEven_ge_two _ cz⟩

/-- Witness for `calc_nx_ny_nz_even_and_ge_two` at the unit box with cell
size `1/2`. -/
theorem calc_nx_ny_nz_even_and_ge_two_witness :
    Even (StlAnalysis.calc_nx_ny_nz ⟨0, 1, 0, 1, 0, 1⟩ (1/2)).1 ∧
      2 ≤ (StlAnalysis.calc_nx_ny_nz ⟨0, 1, 0, 1, 0, 1⟩ (1/2)).1 :=
  ⟨(calc_nx_ny_nz_even_and_ge_two ⟨0, 1, 0, 1, 0, 1⟩ (1/2) (by norm_num) (by norm_num)
      (by norm_num) (by norm_num)).2.1,
   (calc_nx_ny_nz_even_and_ge_two ⟨0, 1, 0, 1, 0, 1⟩ (1/2) (by norm_num) (by norm_num)
      (by norm_num) (by norm_num)).2.2.1⟩

/-- C4 (counterexample).  With the half-model flag set, the domain's
max-y face is collapsed to the midplane, which lies strictly below the
surface box's own `maxy`: for the unit cube under external flow the
domain maxy is `((1 + 2·1) + (0 - 2·1))/2 = 1/2 < 1`, so containment
fails for that regime-flag combination. -/
theorem calc_domain_bbox_half_model_not_contains :
    ¬ (StlAnalysis.calc_domain_bbox ⟨0, 1, 0, 1, 0, 1⟩ 1 false false true).contains
        ⟨0, 1, 0, 1, 0, 1⟩ := by
  intro h
  have hy := h.2.2.2.1
  simp [StlAnalysis.calc_domain_bbox, BoundingBox.scale_dimensions,
    BoundingBox.max_length] at hy
  norm_num at hy

/-- C4 (amended: excluding the half-model collapse).  For every surface
box satisfying the `min ≤ max` invariant and every combination of the
on-ground and internal-flow flags, the domain box computed with the
default size factor `1.0` and `is_half_model = False` contains the
surface box componentwise. -/
theorem calc_domain_bbox_contains (b : BoundingBox) (og intf : Bool) (h : b.valid) :
    (StlAnalysis.calc_domain_bbox b 1 og intf false).contains b := by
  have hL := BoundingBox.max_length_nonneg h
  obtain ⟨h1, h2, h3⟩ := h
  unfold StlAnalysis.calc_domain_bbox BoundingBox.contains BoundingBox.scale_dimensions
  cases og <;> cases intf <;>
    simp only [Bool.false_eq_true, if_false, if_true, reduceIte] <;>
    refine ⟨?_, ?_, ?_, ?_, ?_, ?_⟩ <;> nlinarith [hL]

/-- Witness for `calc_domain_bbox_contains` at the unit cube, on ground,
internal flow. -/
theorem calc_domain_bbox_contains_witness :
    (StlAnalysis.calc_domain_bbox ⟨0, 1, 0, 1, 0, 1⟩ 1 true true false).contains
      ⟨0, 1, 0, 1, 0, 1⟩ :=
  calc_domain_bbox_contains ⟨0, 1, 0, 1, 0, 1⟩ true true (by refine ⟨?_, ?_, ?_⟩ <;> norm_num)

/-- C5 (confirmed).  For every surface bounding box and refinement level,
`get_refinement_boxes` returns the empty region set for internal flow;
for external flow it returns exactly the two boxes obtained from the
surface box by the specified per-bound offsets (wide wake box at
`ref_level - 1`, `"fineBox"` at `ref_level`), so the fine box's level is
the coarse box's level plus one. -/
theorem get_refinement_boxes_spec (b : BoundingBox) (lvl : ℤ) :
    StlAnalysis.get_refinement_boxes b "refinementBox" lvl true = [] ∧
    StlAnalysis.get_refinement_boxes b "refinementBox" lvl false =
      [ ("refinementBox", Geometry.box
          { bbox := b.scale_dimensions (-(0.7*(b.maxx - b.minx))) (15.0*(b.maxx - b.minx))
              (-(1.0*(b.maxy - b.miny))) (1.0*(b.maxy - b.miny))
              (-(1.0*(b.maxz - b.minz))) (1.0*(b.maxz - b.minz))
            refineMax := lvl - 1 })
      , ("fineBox", Geometry.box
          { bbox := b.scale_dimensions (-(0.2*(b.maxx - b.minx))) (3.0*(b.maxx - b.minx))
              (-(0.45*(b.maxy - b.miny))) (0.45*(b.maxy - b.miny))
              (-(0.45*(b.maxz - b.minz))) (0.45*(b.maxz - b.minz))
            refineMax := lvl }) ] ∧
    (StlAnalysis.get_refinement_boxes b "refinementBox" lvl false).length = 2 ∧
    lvl = (lvl - 1) + 1 := by
  refine ⟨rfl, rfl, rfl, by ring⟩

/-- C6 (confirmed).  For a fixed surface box (satisfying `min ≤ max` per
axis), maximum cell size and flow regime, the background cell size is
monotonically non-increasing as the refinement amount moves
coarse → medium → fine. -/
theorem calc_background_cell_size_monotone (b : BoundingBox) (mcs : ℚ) (intf : Bool)
    (h : b.valid) :
    StlAnalysis.calc_background_cell_size .medium b mcs intf ≤
      StlAnalysis.calc_background_cell_size .coarse b mcs intf ∧
    StlAnalysis.calc_background_cell_size .fine b mcs intf ≤
      StlAnalysis.calc_background_cell_size .medium b mcs intf := by
  have hM := BoundingBox.max_length_nonneg h
  have hm := BoundingBox.min_length_nonneg h
  unfold StlAnalysis.calc_background_cell_size
  cases intf
  · constructor
    · exact min_le_min (qdiv_anti _ 3 5 hm (by norm_num) (by norm_num)) le_rfl
    · exact min_le_min (qdiv_anti _ 5 7 hm (by norm_num) (by norm_num)) le_rfl
  · simp only [reduceIte]
    split_ifs with hc
    · constructor
      · exact min_le_min (qdiv_anti _ 50 70 hM (by norm_num) (by norm_num)) le_rfl
      · exact min_le_min (qdiv_anti _ 70 90 hM (by norm_num) (by norm_num)) le_rfl
    · constructor
      · exact min_le_min (qdiv_anti _ 8 12 hm (by norm_num) (by norm_num)) le_rfl
      · exact min_le_min (qdiv_anti _ 12 16 hm (by norm_num) (by norm_num)) le_rfl

/-- Witness for `calc_background_cell_size_monotone` at a concrete
slender box. -/
theorem calc_background_cell_size_monotone_witness :
    StlAnalysis.calc_background_cell_size .medium ⟨0, 20, 0, 1, 0, 1⟩ 1 true ≤
      StlAnalysis.calc_background_cell_size .coarse ⟨0, 20, 0, 1, 0, 1⟩ 1 true :=
  (calc_background_cell_size_monotone ⟨0, 20, 0, 1, 0, 1⟩ 1 true
    (by refine ⟨?_, ?_, ?_⟩ <;> norm_num)).1

namespace StlAnalysis

theorem calc_layers_go_succ (r δ : ℚ) (fuel i : ℕ) (t d : ℚ) :
    calc_layers_go r δ (fuel + 1) i t d =
      if δ < d + t * r ^ i then (i, t * r ^ i)
      else calc_layers_go r δ fuel (i + 1) (t * r ^ i) (d + t * r ^ i) := by
  rfl

/-- The returned layer index is always below `i + fuel`; for
`calc_layers` itself (fuel 49 starting at index 1) it is below 50. -/
theorem calc_layers_go_index_lt (r δ : ℚ) :
    ∀ (fuel i : ℕ) (t d : ℚ), 1 ≤ i → (calc_layers_go r δ fuel i t d).1 < i + fuel := by
  intro fuel
  induction fuel with
  | zero => intro i t d hi; simpa using hi
  | succ n ih =>
      intro i t d hi
      rw [calc_layers_go_succ]
      split_ifs with h
      · omega
      · have := ih (i + 1) (t * r ^ i) (d + t * r ^ i) (by omega)
        omega

/-- Running the loop from the state after step `i`: if the accumulated
sum never exceeds `delta` for the remaining indices, the loop falls
through and returns index `0` with the thickness of the last step. -/
theorem calc_layers_go_all_le (yF r δ : ℚ) :
    ∀ (fuel i : ℕ), (∀ j, i + 1 ≤ j → j ≤ i + fuel → iterSum yF r j ≤ δ) →
      calc_layers_go r δ fuel (i + 1) (iterThick yF r i) (iterSum yF r i) =
        (0, iterThick yF r (i + fuel)) := by
  intro fuel
  induction fuel with
  | zero => intro i _; rfl
  | succ n ih =>
      intro i hall
      rw [calc_layers_go_succ]
      have ht : iterThick yF r i * r ^ (i + 1) = iterThick yF r (i + 1) := rfl
      have hd : iterSum yF r i + iterThick yF r i * r ^ (i + 1) = iterSum yF r (i + 1) := rfl
      rw [hd, ht]
      have hle : iterSum yF r (i + 1) ≤ δ := hall (i + 1) le_rfl (by omega)
      rw [if_neg (not_lt.mpr hle)]
      have := ih (i + 1) (fun j hj1 hj2 => hall j (by omega) (by omega))
      rw [this, show i + 1 + n = i + (n + 1) from by omega]

/-- Running the loop from the state after step `i`: if the accumulated
sum exceeds `delta` at some reachable index `j`, the returned index is at
most `j`. -/
theorem calc_layers_go_le (yF r δ : ℚ) :
    ∀ (fuel i j : ℕ), i + 1 ≤ j → j ≤ i + fuel → δ < iterSum yF r j →
      (calc_layers_go r δ fuel (i + 1) (iterThick yF r i) (iterSum yF r i)).1 ≤ j := by
  intro fuel
  induction fuel with
  | zero => intro i j hj1 hj2 _; omega
  | succ n ih =>
      intro i j hj1 hj2 hgt
      rw [calc_layers_go_succ]
      have ht : iterThick yF r i * r ^ (i + 1) = iterThick yF r (i + 1) := rfl
      have hd : iterSum yF r i + iterThick yF r i * r ^ (i + 1) = iterSum yF r (i + 1) := rfl
      rw [hd, ht]
      split_ifs with h
      · omega
      · rcases eq_or_lt_of_le hj1 with heq | hlt
        · exact absurd (heq ▸ hgt) h
        · exact ih (i + 1) j hlt (by omega) hgt

/-- Running the loop from the state after step `i`: if index `j` is the
first reachable index whose accumulated sum exceeds `delta`, the loop
breaks exactly there, returning `(j, iterThick j)`. -/
theorem calc_layers_go_break (yF r δ : ℚ) :
    ∀ (fuel i j : ℕ), i + 1 ≤ j → j ≤ i + fuel →
      (∀ k, i + 1 ≤ k → k < j → iterSum yF r k ≤ δ) → δ < iterSum yF r j →
      calc_layers_go r δ fuel (i + 1) (iterThick yF r i) (iterSum yF r i) =
        (j, iterThick yF r j) := by
  intro fuel
  induction fuel with
  | zero => intro i j hj1 hj2 _ _; omega
  | succ n ih =>
      intro i j hj1 hj2 hbelow hgt
      rw [calc_layers_go_succ]
      have ht : iterThick yF r i * r ^ (i + 1) = iterThick yF r (i + 1) := rfl
      have hd : iterSum yF r i + iterThick yF r i * r ^ (i + 1) = iterSum yF r (i + 1) := rfl
      rw [hd, ht]
      rcases eq_or_lt_of_le hj1 with heq | hlt
      · rw [if_pos (heq ▸ hgt), heq]
      · have hle : iterSum yF r (i + 1) ≤ δ := hbelow (i + 1) le_rfl hlt
        rw [if_neg (not_lt.mpr hle)]
        exact ih (i + 1) j hlt (by omega) (fun k hk1 hk2 => hbelow k (by omega) hk2) hgt

/-- `calc_layers` is the loop started at index 1 from `(yFirst*2, 0)`,
which is the state after step 0. -/
theorem calc_layers_eq_go (yF δ r : ℚ) :
    calc_layers yF δ r = calc_layers_go r δ 49 (0 + 1) (iterThick yF r 0) (iterSum yF r 0) := by
  rfl

/-- The iterative thickness dominates the geometric-growth thickness when
the ratio is at least one. -/
theorem iterThick_ge_geom (yF r : ℚ) (hyF : 0 ≤ yF) (hr : 1 ≤ r) :
    ∀ i, yF * 2 * r ^ i ≤ iterThick yF r i := by
  intro i
  induction i with
  | zero => simp [iterThick]
  | succ n ih =>
      have hr0 : (0:ℚ) ≤ r := le_trans zero_le_one hr
      have hpow : (0:ℚ) ≤ r ^ (n + 1) := pow_nonneg hr0 _
      have h1 : yF * 2 * r ^ n * r ^ (n + 1) ≤ iterThick yF r n * r ^ (n + 1) :=
        mul_le_mul_of_nonneg_right ih hpow
      have h2 : yF * 2 * r ^ (n + 1) ≤ yF * 2 * r ^ n * r ^ (n + 1) := by
        have hpn : (1:ℚ) ≤ r ^ n := one_le_pow₀ hr
        nlinarith [pow_nonneg hr0 (n + 1), mul_nonneg (mul_nonneg hyF (by norm_num : (0:ℚ) ≤ 2)) hpow]
      calc yF * 2 * r ^ (n + 1) ≤ yF * 2 * r ^ n * r ^ (n + 1) := h2
        _ ≤ iterThick yF r n * r ^ (n + 1) := h1
        _ = iterThick yF r (n + 1) := rfl

/-- The iterative running sum dominates the geometric running sum. -/
theorem iterSum_ge_geomSum (yF r : ℚ) (hyF : 0 ≤ yF) (hr : 1 ≤ r) :
    ∀ i, geomSum yF r i ≤ iterSum yF r i := by
  intro i
  induction i with
  | zero => simp [geomSum, iterSum]
  | succ n ih =>
      have := iterThick_ge_geom yF r hyF hr (n + 1)
      show geomSum yF r n + yF * 2 * r ^ (n + 1) ≤ iterSum yF r n + iterThick yF r (n + 1)
      linarith

end StlAnalysis

namespace StlAnalysis

theorem iterThick_one_one (j : ℕ) : iterThick 1 1 j = 2 := by
  induction j with
  | zero => norm_num [iterThick]
  | succ n ih => simp [iterThick, ih]

theorem iterSum_one_one (j : ℕ) : iterSum 1 1 j = 2 * (j : ℚ) := by
  induction j with
  | zero => norm_num [iterSum]
  | succ n ih =>
      have h : iterSum 1 1 (n + 1) = iterSum 1 1 n + iterThick 1 1 (n + 1) := rfl
      rw [h, ih, iterThick_one_one]
      push_cast
      ring

end StlAnalysis

/-- C8 (counterexample).  On an input whose accumulated layer thickness
never exceeds the target depth within the 49 loop iterations
(`yFirst = 1`, `delta = 200`, `expRatio = 1`: every partial sum is
`2·j ≤ 98 < 200`), `calc_layers` does not raise any error: it silently
returns the pair `(0, 2)` (layer count zero and the last thickness). -/
theorem calc_layers_no_convergence_returns_result :
    (∀ j, 1 ≤ j → j ≤ 49 → StlAnalysis.iterSum 1 1 j ≤ 200) ∧
      StlAnalysis.calc_layers 1 200 1 = (0, 2) := by
  have hall : ∀ j, 1 ≤ j → j ≤ 49 → StlAnalysis.iterSum 1 1 j ≤ 200 := by
    intro j _ h2
    rw [StlAnalysis.iterSum_one_one]
    have : (j : ℚ) ≤ 49 := by exact_mod_cast h2
    linarith
  refine ⟨hall, ?_⟩
  rw [StlAnalysis.calc_layers_eq_go,
    StlAnalysis.calc_layers_go_all_le 1 1 200 49 0 (fun j hj1 hj2 => hall j hj1 (by omega))]
  rw [StlAnalysis.iterThick_one_one]

/-- C8 (amended).  The layer-growth search is indeed bounded by the fixed
cap (the loop runs indices 1..49, so the returned index is below 50), but
on non-convergence it does not reject: it returns layer count `0`
together with the thickness of the 49th step, instead of raising a
`ConvergenceError` (no such error exists in the code). -/
theorem calc_layers_capped_and_returns_zero (yF δ r : ℚ) :
    (StlAnalysis.calc_layers yF δ r).1 < 50 ∧
      ((∀ j, 1 ≤ j → j ≤ 49 → StlAnalysis.iterSum yF r j ≤ δ) →
        StlAnalysis.calc_layers yF δ r = (0, StlAnalysis.iterThick yF r 49)) := by
  constructor
  · rw [StlAnalysis.calc_layers_eq_go]
    have := StlAnalysis.calc_layers_go_index_lt r δ 49 (0 + 1)
      (StlAnalysis.iterThick yF r 0) (StlAnalysis.iterSum yF r 0) (by omega)
    omega
  · intro h
    rw [StlAnalysis.calc_layers_eq_go,
      StlAnalysis.calc_layers_go_all_le yF r δ 49 0 (fun j hj1 hj2 => h j hj1 (by omega))]

/-- Witness for `calc_layers_capped_and_returns_zero` at
`(yFirst, delta, expRatio) = (1, 200, 1)`. -/
theorem calc_layers_capped_and_returns_zero_witness :
    StlAnalysis.calc_layers 1 200 1 = (0, StlAnalysis.iterThick 1 1 49) ∧
      (StlAnalysis.calc_layers 1 200 1).1 < 50 :=
  ⟨(calc_layers_capped_and_returns_zero 1 200 1).2
      (fun j _ h2 => by
        rw [StlAnalysis.iterSum_one_one]
        have : (j : ℚ) ≤ 49 := by exact_mod_cast h2
        linarith),
   (calc_layers_capped_and_returns_zero 1 200 1).1⟩

/-- C9 (counterexample).  Consistent inputs: first-layer thickness
`2·yFirst = 1/500`, expansion ratio `6/5`, final-layer thickness
`(1/500)·(6/5)^6` (pure geometric growth over 6 steps), and target depth
`geomSum = Σ_{i=1..6} (1/500)·(6/5)^i`, the total depth of that 6-layer
geometric schedule.  The closed form of §4.5 step 7 gives 6 layers, while
the iterative `calc_layers` (whose thickness grows by `expRatio**i` at
step `i`, i.e. super-geometrically) stops after 4 layers: they differ by
2 > 1. -/
theorem closed_vs_iterative_layer_counts_differ :
    StlAnalysis.num_layers (1/500) ((1/500) * (6/5)^6) (6/5) = 6 ∧
      (StlAnalysis.calc_layers (1/1000) (StlAnalysis.geomSum (1/1000) (6/5) 6) (6/5)).1 = 4 := by
  constructor
  · unfold StlAnalysis.num_layers pyInt
    have harg : ((1/500 : ℝ) * (6/5)^6) / (1/500) = (6/5 : ℝ)^6 := by
      rw [mul_comm, mul_div_assoc, div_self (by norm_num), mul_one]
    have hlog : Real.log (6/5) ≠ 0 := ne_of_gt (Real.log_pos (by norm_num))
    rw [harg, Real.log_pow, mul_div_assoc, div_self hlog, mul_one]
    norm_num
  · have hbelow : ∀ k, 0 + 1 ≤ k → k < 4 →
        StlAnalysis.iterSum (1/1000) (6/5) k ≤ StlAnalysis.geomSum (1/1000) (6/5) 6 := by
      intro k h1 h2
      interval_cases k <;>
        norm_num [StlAnalysis.iterSum, StlAnalysis.iterThick, StlAnalysis.geomSum]
    have hgt : StlAnalysis.geomSum (1/1000) (6/5) 6 < StlAnalysis.iterSum (1/1000) (6/5) 4 := by
      norm_num [StlAnalysis.iterSum, StlAnalysis.iterThick, StlAnalysis.geomSum]
    rw [StlAnalysis.calc_layers_eq_go,
      StlAnalysis.calc_layers_go_break (1/1000) (6/5) _ 49 0 4 (by omega) (by omega) hbelow hgt]

/-- C9 (amended).  The agreement-within-one claim fails (see the
counterexample); what does hold is the one-sided bound: for a target
depth equal to the total depth of the `N`-layer closed-form geometric
schedule (`N ≥ 1`, expansion ratio `> 1`, positive first layer), the
iterative count never exceeds `N + 1`, because the super-geometric
iterative growth dominates the geometric schedule. -/
theorem calc_layers_le_closed_count (yF r : ℚ) (N : ℕ) (hyF : 0 < yF) (hr : 1 < r)
    (hN : 1 ≤ N) :
    (StlAnalysis.calc_layers yF (StlAnalysis.geomSum yF r N) r).1 ≤ N + 1 := by
  by_cases hN49 : N + 1 ≤ 49
  · rw [StlAnalysis.calc_layers_eq_go]
    apply StlAnalysis.calc_layers_go_le yF r _ 49 0 (N + 1) (by omega) (by omega)
    have h1 : StlAnalysis.geomSum yF r (N + 1) ≤ StlAnalysis.iterSum yF r (N + 1) :=
      StlAnalysis.iterSum_ge_geomSum yF r (le_of_lt hyF) (le_of_lt hr) (N + 1)
    have h2 : StlAnalysis.geomSum yF r N < StlAnalysis.geomSum yF r (N + 1) := by
      have hpos : 0 < yF * 2 * r ^ (N + 1) := by
        have := pow_pos (lt_trans zero_lt_one hr) (N + 1)
        nlinarith
      show StlAnalysis.geomSum yF r N < StlAnalysis.geomSum yF r N + yF * 2 * r ^ (N + 1)
      linarith
    linarith
  · rw [StlAnalysis.calc_layers_eq_go]
    have := StlAnalysis.calc_layers_go_index_lt r (StlAnalysis.geomSum yF r N) 49 (0 + 1)
      (StlAnalysis.iterThick yF r 0) (StlAnalysis.iterSum yF r 0) (by omega)
    omega

/-- Witness for `calc_layers_le_closed_count` at `yF = 1`, `r = 2`,
`N = 1`. -/
theorem calc_layers_le_closed_count_witness :
    (StlAnalysis.calc_layers 1 (StlAnalysis.geomSum 1 2 1) 2).1 ≤ 2 :=
  calc_layers_le_closed_count 1 2 1 (by norm_num) (by norm_num) (by norm_num)

/-- Division of a fixed nonnegative real numerator is antitone in the
(positive) denominator. -/
theorem rdiv_anti (a c d : ℝ) (ha : 0 ≤ a) (hc : 0 < c) (hcd : c ≤ d) : a / d ≤ a / c := by
  have hd : 0 < d := lt_of_lt_of_le hc hcd
  rw [div_le_div_iff₀ hd hc]
  nlinarith

/-- `100000 ** (-1/5) = 1/10` exactly. -/
theorem rpow_hundred_thousand_neg_fifth : (100000:ℝ) ^ (-(1/5 : ℝ)) = 1/10 := by
  have h1 : (100000:ℝ) = (10:ℝ) ^ (5:ℕ) := by norm_num
  rw [h1, ← Real.rpow_natCast (10:ℝ) 5, ← Real.rpow_mul (by norm_num : (0:ℝ) ≤ 10)]
  rw [show ((5:ℕ):ℝ) * -(1/5 : ℝ) = ((-1:ℤ):ℝ) by push_cast; ring]
  rw [Real.rpow_intCast]
  norm_num

namespace StlAnalysis

/-- In `calc_y` the density cancels between the wall shear stress and the
friction velocity: for any nonzero `rho` the near-wall distance equals
`yPlus·nu / sqrt(0.5·Cf·U²)`. -/
theorem calc_y_eq (nu rho L U yp : ℝ) (hrho : rho ≠ 0) :
    calc_y nu rho L U yp =
      yp * nu / Real.sqrt (0.5 * (0.0592 * (U * L / nu) ^ (-(1/5) : ℝ)) * U ^ 2) := by
  simp only [calc_y]
  rw [show (0.5 * rho * (0.0592 * (U * L / nu) ^ (-(1/5) : ℝ)) * U ^ 2) / rho =
      0.5 * (0.0592 * (U * L / nu) ^ (-(1/5) : ℝ)) * U ^ 2 by field_simp; ring]

/-- The squared friction velocity `0.5·Cf·U²` is positive for positive
`nu`, `L`, `U`. -/
theorem uStar_sq_pos (nu L U : ℝ) (hnu : 0 < nu) (hL : 0 < L) (hU : 0 < U) :
    0 < 0.5 * (0.0592 * (U * L / nu) ^ (-(1/5) : ℝ)) * U ^ 2 := by
  have hRe : 0 < U * L / nu := div_pos (mul_pos hU hL) hnu
  have hrp := Real.rpow_pos_of_pos hRe (-(1/5) : ℝ)
  have h1 : (0:ℝ) < 0.0592 * (U * L / nu) ^ (-(1/5) : ℝ) := by positivity
  have h2 : (0:ℝ) < 0.5 * (0.0592 * (U * L / nu) ^ (-(1/5) : ℝ)) := by positivity
  exact mul_pos h2 (pow_pos hU 2)

/-- `calc_y` returns a positive value for positive `nu`, `L`, `U`,
`yPlus` and any nonzero `rho`. -/
theorem calc_y_pos (nu rho L U yp : ℝ) (hnu : 0 < nu) (hL : 0 < L) (hU : 0 < U)
    (hyp : 0 < yp) (hrho : rho ≠ 0) : 0 < calc_y nu rho L U yp := by
  rw [calc_y_eq nu rho L U yp hrho]
  exact div_pos (mul_pos hyp hnu) (Real.sqrt_pos.mpr (uStar_sq_pos nu L U hnu hL hU))

end StlAnalysis

/-- C2 (counterexample).  With the non-positive density `rho = -1000`
(and positive `nu = 1e-5`, `L = U = 1`, target y-plus 200), `calc_y` does
not reject: every arithmetic step stays real and finite (`tau < 0` but
`tau/rho > 0`), and it silently returns the same positive near-wall
distance as for `rho = +1000`.  There is no input validation and no
`PhysicalParameterError` anywhere in the code. -/
theorem calc_y_negative_rho_returns_result :
    StlAnalysis.calc_y (1/100000) (-1000) 1 1 200 = StlAnalysis.calc_y (1/100000) 1000 1 1 200 ∧
      0 < StlAnalysis.calc_y (1/100000) (-1000) 1 1 200 := by
  constructor
  · rw [StlAnalysis.calc_y_eq (1/100000) (-1000) 1 1 200 (by norm_num),
      StlAnalysis.calc_y_eq (1/100000) 1000 1 1 200 (by norm_num)]
  · exact StlAnalysis.calc_y_pos (1/100000) (-1000) 1 1 200 (by norm_num) (by norm_num)
      (by norm_num) (by norm_num) (by norm_num)

/-- C2 (amended).  The boundary-layer computation performs no input
validation: for negative (non-positive) density it silently returns the
same finite positive near-wall distance as for the corresponding positive
density (`rho` cancels), rather than rejecting with an error. -/
theorem calc_y_accepts_nonpositive_rho (nu L U yp rho : ℝ) (hnu : 0 < nu) (hL : 0 < L)
    (hU : 0 < U) (hyp : 0 < yp) (hrho : rho < 0) :
    0 < StlAnalysis.calc_y nu rho L U yp ∧
      StlAnalysis.calc_y nu rho L U yp = StlAnalysis.calc_y nu (-rho) L U yp := by
  have hrho' : rho ≠ 0 := ne_of_lt hrho
  have hrho2 : -rho ≠ 0 := neg_ne_zero.mpr hrho'
  exact ⟨StlAnalysis.calc_y_pos nu rho L U yp hnu hL hU hyp hrho',
    by rw [StlAnalysis.calc_y_eq nu rho L U yp hrho', StlAnalysis.calc_y_eq nu (-rho) L U yp hrho2]⟩

/-- Witness for `calc_y_accepts_nonpositive_rho` at
`(nu, L, U, yPlus, rho) = (1e-5, 1, 1, 200, -1000)`. -/
theorem calc_y_accepts_nonpositive_rho_witness :
    0 < StlAnalysis.calc_y (1/100000) (-1000) 1 1 200 ∧
      StlAnalysis.calc_y (1/100000) (-1000) 1 1 200 =
        StlAnalysis.calc_y (1/100000) (-(-1000)) 1 1 200 :=
  calc_y_accepts_nonpositive_rho (1/100000) 1 1 200 (-1000) (by norm_num) (by norm_num)
    (by norm_num) (by norm_num) (by norm_num)

/-- C10 (confirmed).  For positive `nu`, `rho`, `L`, `U` and target
y-plus, composing the two wall-distance conversions is an exact round
trip over the reals, and the near-wall distance is independent of the
density (it equals the value at `rho = 1`). -/
theorem calc_yPlus_calc_y_round_trip (nu rho L U yp : ℝ) (hnu : 0 < nu) (hrho : 0 < rho)
    (hL : 0 < L) (hU : 0 < U) (_hyp : 0 < yp) :
    StlAnalysis.calc_yPlus nu L U (StlAnalysis.calc_y nu rho L U yp) = yp ∧
      StlAnalysis.calc_y nu rho L U yp = StlAnalysis.calc_y nu 1 L U yp := by
  have hrho' : rho ≠ 0 := ne_of_gt hrho
  have hus := StlAnalysis.uStar_sq_pos nu L U hnu hL hU
  have hsqrt : 0 < Real.sqrt (0.5 * (0.0592 * (U * L / nu) ^ (-(1/5) : ℝ)) * U ^ 2) :=
    Real.sqrt_pos.mpr hus
  constructor
  · rw [StlAnalysis.calc_y_eq nu rho L U yp hrho']
    simp only [StlAnalysis.calc_yPlus]
    field_simp
  · rw [StlAnalysis.calc_y_eq nu rho L U yp hrho', StlAnalysis.calc_y_eq nu 1 L U yp one_ne_zero]

/-- Witness for `calc_yPlus_calc_y_round_trip` at all-ones input. -/
theorem calc_yPlus_calc_y_round_trip_witness :
    StlAnalysis.calc_yPlus 1 1 1 (StlAnalysis.calc_y 1 1 1 1 1) = 1 :=
  (calc_yPlus_calc_y_round_trip 1 1 1 1 1 (by norm_num) (by norm_num) (by norm_num)
    (by norm_num) (by norm_num)).1

/-- C7 (counterexample).  The first-layer thickness `2·y` and the
final-layer thickness `0.35·targetCellSize` are computed independently of
the expansion ratio, so `expansionRatio > 1` does not imply
`first < final`: for the unit cube, coarse refinement, `nu = 1e-5`,
`rho = 1000`, `U = 1`, ratio `6/5 > 1` and target cell size `1/100`, the
first-layer thickness (about `0.0257`) exceeds the final-layer thickness
(`0.0035`). -/
theorem calc_boundary_layer_first_ge_final_example :
    (1:ℚ) < 6/5 ∧
      (StlAnalysis.calc_boundary_layer ⟨0, 1, 0, 1, 0, 1⟩ .coarse (1/100000) 1000 1 (6/5)
          (1/100)).final_layer_thickness ≤
        (StlAnalysis.calc_boundary_layer ⟨0, 1, 0, 1, 0, 1⟩ .coarse (1/100000) 1000 1 (6/5)
          (1/100)).first_layer_thickness := by
  refine ⟨by norm_num, ?_⟩
  have hL : ((BoundingBox.max_length ⟨0, 1, 0, 1, 0, 1⟩ : ℚ) : ℝ) = 1 := by
    norm_num [BoundingBox.max_length]
  simp only [StlAnalysis.calc_boundary_layer, hL]
  push_cast
  rw [StlAnalysis.calc_y_eq (1/100000) 1000 1 1 70 (by norm_num)]
  rw [show (1:ℝ) * 1 / (1/100000) = 100000 by norm_num, rpow_hundred_thousand_neg_fifth]
  rw [show (0.5 * (0.0592 * (1/10)) * (1:ℝ) ^ 2) = 37/12500 by norm_num]
  have hs_pos : 0 < Real.sqrt (37/12500 : ℝ) := Real.sqrt_pos.mpr (by norm_num)
  have hs_le : Real.sqrt (37/12500 : ℝ) ≤ 3/50 := by
    calc Real.sqrt (37/12500 : ℝ) ≤ Real.sqrt ((3/50)^2) :=
          Real.sqrt_le_sqrt (by norm_num)
      _ = 3/50 := Real.sqrt_sq (by norm_num)
  have hdiv : (70 * (1/100000) : ℝ) / (3/50) ≤ (70 * (1/100000)) / Real.sqrt (37/12500) :=
    rdiv_anti _ _ _ (by norm_num) hs_pos hs_le
  have hval : (70 * (1/100000) : ℝ) / (3/50) = 7/600 := by norm_num
  nlinarith [hdiv]

/-- C7 (amended).  In `calc_boundary_layer` the relation between the two
thicknesses does not involve the expansion ratio at all: the first-layer
thickness is below the final-layer thickness exactly when the target
near-wall distance is below `0.175` times the target cell size. -/
theorem calc_boundary_layer_first_lt_final_iff (b : BoundingBox) (amount : RefinementAmount)
    (nu rho u r tcs : ℚ) :
    (StlAnalysis.calc_boundary_layer b amount nu rho u r tcs).first_layer_thickness <
        (StlAnalysis.calc_boundary_layer b amount nu rho u r tcs).final_layer_thickness ↔
      (StlAnalysis.calc_boundary_layer b amount nu rho u r tcs).y < 0.175 * (tcs : ℝ) := by
  cases amount <;> simp only [StlAnalysis.calc_boundary_layer] <;>
    constructor <;> intro h <;> linarith

/-- C1 (confirmed).  When the aggregate already holds a `wall`-purpose
geometry, adding another `wall` surface raises the duplicate-wall error,
and because that scan is the first statement of the `wall` branch —
before any assignment to the aggregate — the caller's aggregate is left
completely unchanged: the whole settings value, and in particular the
domain, the geometry map and `maxCellSize`, are identical before and
after the failed call. -/
theorem add_stl_to_settings_second_wall (s : SimulationSettings) (stl_name : String)
    (stl_bbox : BoundingBox) (loc : ℚ × ℚ × ℚ) (property : Option PatchProperty)
    (h : containsWall s.mesh.geometry = true) :
    StlAnalysis.add_stl_to_settings s stl_name stl_bbox loc PatchType.wall property =
        Except.error
          "Only one wall geometry entry allowed currently, if multiple please fuse with one STL" ∧
      StlAnalysis.add_stl_outcome s stl_name stl_bbox loc PatchType.wall property = s ∧
      (StlAnalysis.add_stl_outcome s stl_name stl_bbox loc PatchType.wall property).mesh.domain =
        s.mesh.domain ∧
      (StlAnalysis.add_stl_outcome s stl_name stl_bbox loc PatchType.wall property).mesh.geometry =
        s.mesh.geometry ∧
      (StlAnalysis.add_stl_outcome s stl_name stl_bbox loc PatchType.wall
          property).mesh.maxCellSize = s.mesh.maxCellSize := by
  have herr : StlAnalysis.add_stl_to_settings s stl_name stl_bbox loc PatchType.wall property =
      Except.error
        "Only one wall geometry entry allowed currently, if multiple please fuse with one STL" := by
    simp only [StlAnalysis.add_stl_to_settings, if_pos rfl, h, if_true]
  have hout : StlAnalysis.add_stl_outcome s stl_name stl_bbox loc PatchType.wall property = s := by
    unfold StlAnalysis.add_stl_outcome
    rw [herr]
  exact ⟨herr, hout, by rw [hout], by rw [hout], by rw [hout]⟩

/-- A concrete aggregate that already holds one wall surface. -/
def sampleWallSettings : SimulationSettings :=
  { mesh :=
      { domain := ⟨-3, 5, -1, 1, 0, 2, 50, 20, 20⟩
        maxCellSize := 1/2
        refAmount := .coarse
        onGround := false
        halfModel := false
        internalFlow := false
        geometry := [("body.stl", Geometry.tri
          { type := PatchType.wall, property := none, refineMin := 0, refineMax := 0
            featureEdges := true, featureLevel := 1, nLayers := 0
            bounds := ⟨0, 1, 0, 1, 0, 1⟩ })]
        castellatedMeshControls := ⟨(0, 0, 0)⟩
        addLayersControls := ⟨7/5, 3/10, 1/10000000⟩ }
    physical_properties := ⟨1000, 1/1000000⟩
    boundary_conditions := ⟨⟨(1, 0, 0)⟩⟩ }

/-- Witness for `add_stl_to_settings_second_wall`: the sample aggregate
holds a wall, and adding a second wall surface errors out. -/
theorem add_stl_to_settings_second_wall_witness :
    containsWall sampleWallSettings.mesh.geometry = true ∧
      StlAnalysis.add_stl_to_settings sampleWallSettings "box.stl" ⟨0, 2, 0, 2, 0, 2⟩ (0, 0, 0)
          PatchType.wall none =
        Except.error
          "Only one wall geometry entry allowed currently, if multiple please fuse with one STL" :=
  ⟨rfl,
   (add_stl_to_settings_second_wall sampleWallSettings "box.stl" ⟨0, 2, 0, 2, 0, 2⟩ (0, 0, 0)
      none rfl).1⟩
